import Mathlib

/-!
Verification development for the ProteinCodex socket command bridge.

The development shallowly embeds the two components of the repository's
TCP command protocol:

* `PyMOLServer._process_command` and `PyMOLServer._handle_client`
  (file `pymol_server.py`), which parse a JSON request, execute the
  embedded PyMOL command and build a JSON status response;
* `PyMOLClient.execute_command` in its two copies
  (`backend/pymol_client.py`, the primary client, and
  `backend/pymol/pymol_client.py`, a duplicate with coarser exception
  handling), which connect, send the request, and accumulate bytes until
  they parse as JSON.

The PyMOL scripting engine (`pymol.cmd`) and the Python `json` module are
external collaborators; they are modelled as oracle parameters (`Engine`,
`decode`).  Network byte streams are modelled as lists of receive events;
bytes are modelled as UTF-8 text, so `bytes.decode('utf-8')` is the
identity and `UnicodeDecodeError` paths are out of scope of the claims.
-/

namespace ProteinCodex

/-! ### Python string primitives

Faithful models of the `str` methods used by the source:
`str.strip()`, `str.split()` and `str.split(None, 1)` (whitespace
splitting), and `str.lower()` (via `String.toLower`, which agrees with
Python on the ASCII commands the protocol carries). -/

/-- Python's notion of whitespace for `str.strip` / `str.split`:
space, tab, newline, carriage return, vertical tab, form feed. -/
def isPyWs (c : Char) : Bool :=
  c == ' ' || c == '\t' || c == '\n' || c == '\r' ||
  c == Char.ofNat 11 || c == Char.ofNat 12

/-- Python `s.strip()`: remove leading and trailing whitespace. -/
def pyStrip (s : String) : String :=
  String.mk (((s.data.dropWhile isPyWs).reverse.dropWhile isPyWs).reverse)

/-- Worker for `pySplitWs`: `acc` holds the characters of the token
currently being read, in reverse order. -/
def splitWsGo : List Char → List Char → List String
  | [], acc => if acc.isEmpty then [] else [String.mk acc.reverse]
  | c :: cs, acc =>
      if isPyWs c then
        if acc.isEmpty then splitWsGo cs []
        else String.mk acc.reverse :: splitWsGo cs []
      else splitWsGo cs (c :: acc)

/-- Python `s.split()` (no arguments): split on runs of whitespace,
discarding empty tokens. -/
def pySplitWs (s : String) : List String :=
  splitWsGo s.data []

/-- Worker for `pySplit1`. -/
def pySplit1Go : List Char → List Char → List String
  | [], acc => if acc.isEmpty then [] else [String.mk acc.reverse]
  | c :: cs, acc =>
      if isPyWs c then
        if acc.isEmpty then pySplit1Go cs []
        else
          let rest := (c :: cs).dropWhile isPyWs
          if rest.isEmpty then [String.mk acc.reverse]
          else [String.mk acc.reverse, String.mk rest]
      else pySplit1Go cs (c :: acc)

/-- Python `s.split(None, 1)`: at most one split on the first run of
whitespace after the first token; the remainder keeps its internal
whitespace. -/
def pySplit1 (s : String) : List String :=
  pySplit1Go s.data []

/-- Python `s.lower()`, restricted to its ASCII action (the protocol's
commands and PDB identifiers are ASCII). -/
def pyLower (s : String) : String :=
  String.mk (s.data.map Char.toLower)

/-- Concatenation of a list of strings (the accumulation `data += chunk`
of the receive loops, folded over a whole event trace). -/
def concatAll : List String → String
  | [] => ""
  | c :: cs => c ++ concatAll cs

/-! ### JSON values

A minimal JSON value type, enough to express the request and response
dictionaries the protocol exchanges.  Dictionaries are association
lists; `json.loads` produces dictionaries with unique keys, and lookup
is first-match. -/

inductive JValue : Type where
  | jstr : String → JValue
  | jint : Int → JValue
  | jobj : List (String × JValue) → JValue
deriving Repr

/-- Python `d[k]` / `k in d` on a parsed JSON dictionary. -/
def jlookup (k : String) : List (String × JValue) → Option JValue
  | [] => none
  | (k', v) :: rest => if k' == k then some v else jlookup k rest

/-- The `status` field of a response, as a string. -/
def respStatus (r : JValue) : Option String :=
  match r with
  | JValue.jobj m =>
      match jlookup "status" m with
      | some (JValue.jstr s) => some s
      | _ => none
  | _ => none

/-- The `error` field of a response, as a string. -/
def respError (r : JValue) : Option String :=
  match r with
  | JValue.jobj m =>
      match jlookup "error" m with
      | some (JValue.jstr s) => some s
      | _ => none
  | _ => none

/-- An arbitrary field of a response object. -/
def respField (k : String) (r : JValue) : Option JValue :=
  match r with
  | JValue.jobj m => jlookup k m
  | _ => none

/-- A field of the `result` sub-object of a response. -/
def resultField (k : String) (r : JValue) : Option JValue :=
  match respField "result" r with
  | some (JValue.jobj m) => jlookup k m
  | _ => none

/-! ### The scripting-engine oracle

`pymol.cmd` is an external collaborator (the repository only calls it).
Each entry point the server uses is an oracle field; `Except String α`
models "returns normally or raises an exception whose `str` is the
carried message".  `count_atoms` counts the atoms of a selection, so its
normal result is a natural number. -/

structure Engine : Type where
  /-- `cmd.fetch(pdb_code, name=obj_name, type='pdb', async_=0)`. -/
  fetch : String → String → Except String Unit
  /-- `cmd.do(command_string)`. -/
  doCmd : String → Except String Unit
  /-- `cmd.get_names("objects")`, observed at the verification step. -/
  getNames : Except String (List String)
  /-- `cmd.count_atoms(selection)`. -/
  countAtoms : String → Except String Nat

/-- The text captured from the redirected `sys.stdout` / `sys.stderr`
during execution.  No claim constrains this text, so it is carried
opaquely into the response. -/
structure Captured : Type where
  out : String
  err : String

/-! ### `PyMOLServer._process_command` (pymol_server.py lines 135-243) -/

/-- The value of the local `result_data` at the end of the inner `try`:
either the fetch-success dictionary
`{"fetch_status": "success", "object": obj, "atoms": n}` or the
`{"execution_error": msg}` dictionary set by the `except` handler and by
the fetch-verification failure branch. -/
inductive RData : Type where
  | fetchOk : String → Nat → RData
  | execErr : String → RData
deriving Repr

/-- The fetch verification block (lines 187-201): look up the loaded
object names, lowercased; on a hit report the atom count, otherwise mark
the execution as failed.  Exceptions from `get_names` / `count_atoms`
land in the surrounding `except` handler (modelled by the `.error`
cases). -/
def fetchVerify (eng : Engine) (obj_name : String) : Bool × Option RData :=
  match eng.getNames with
  | Except.error msg => (false, some (RData.execErr msg))
  | Except.ok names =>
      let loaded_objects := names.map pyLower
      if obj_name ≠ "" && loaded_objects.contains obj_name then
        match eng.countAtoms ("(" ++ obj_name ++ ")") with
        | Except.error msg => (false, some (RData.execErr msg))
        | Except.ok atom_count => (true, some (RData.fetchOk obj_name atom_count))
      else if obj_name ≠ "" then
        (false, some (RData.execErr
          ("Object '" ++ obj_name ++
           "' not found after synchronous fetch attempt. Check PDB ID and network.")))
      else (true, none)

/-- Python type names, for the `AttributeError` raised when the `cmd`
value is not a string (`command_to_run.strip()`, line 165). -/
def pyTypeName : JValue → String
  | JValue.jstr _ => "str"
  | JValue.jint _ => "int"
  | JValue.jobj _ => "dict"

/-- The body of the inner `try` (lines 163-209): split the command,
dispatch to `cmd.fetch` (synchronous special case) or `cmd.do`, run the
fetch verification, and convert any raised exception into
`success_flag = False` plus an `execution_error` record.

Faithfully modelled exceptions: `parts[0]` on an empty split raises
`IndexError('list index out of range')`; `command_args.split()[0]` would
raise the same; referencing `obj_name` in the verification block when
the `cmd.fetch` branch did not run raises `UnboundLocalError` (the
bare-`fetch` case) with the message
`local variable 'obj_name' referenced before assignment`; a non-string
`cmd` value raises `AttributeError` at `.strip()`. -/
def innerExec (eng : Engine) (cmdVal : JValue) : Bool × Option RData :=
  match cmdVal with
  | JValue.jstr command_to_run =>
      let command_to_run_stripped := pyStrip command_to_run
      match pySplit1 command_to_run_stripped with
      | [] => (false, some (RData.execErr "list index out of range"))
      | w :: restList =>
          let command_word := pyLower w
          let command_args := match restList with
            | [r] => r
            | _ => ""
          if command_word == "fetch" && command_args ≠ "" then
            match pySplitWs command_args with
            | [] => (false, some (RData.execErr "list index out of range"))
            | pdb_code :: _ =>
                let obj_name := pyLower pdb_code
                match eng.fetch pdb_code obj_name with
                | Except.error msg => (false, some (RData.execErr msg))
                | Except.ok _ => fetchVerify eng obj_name
          else
            match eng.doCmd command_to_run_stripped with
            | Except.error msg => (false, some (RData.execErr msg))
            | Except.ok _ =>
                if command_word == "fetch" then
                  match eng.getNames with
                  | Except.error msg => (false, some (RData.execErr msg))
                  | Except.ok _ =>
                      (false, some (RData.execErr
                        "local variable 'obj_name' referenced before assignment"))
                else (true, none)
  | other =>
      (false, some (RData.execErr
        ("'" ++ pyTypeName other ++ "' object has no attribute 'strip'")))

/-- `result_data` rendered as the JSON value placed in a success
response's `result` field. -/
def rdataToJson : RData → JValue
  | RData.fetchOk obj atoms =>
      JValue.jobj [("fetch_status", JValue.jstr "success"),
                   ("object", JValue.jstr obj),
                   ("atoms", JValue.jint (Int.ofNat atoms))]
  | RData.execErr msg => JValue.jobj [("execution_error", JValue.jstr msg)]

/-- `result_data.get("execution_error", "Execution failed") if result_data
else "Execution failed"` (line 233). -/
def errorOfRData : Option RData → String
  | some (RData.execErr msg) => msg
  | some (RData.fetchOk _ _) => "Execution failed"
  | none => "Execution failed"

/-- Building the response dictionary (lines 221-236). -/
def buildResponse (cmdVal : JValue) (success_flag : Bool)
    (result_data : Option RData) (cap : Captured) : JValue :=
  if success_flag then
    JValue.jobj [("status", JValue.jstr "success"),
                 ("command_executed", cmdVal),
                 ("result", match result_data with
                   | some rd => rdataToJson rd
                   | none => JValue.jstr "Command completed."),
                 ("stdout", JValue.jstr cap.out),
                 ("stderr", JValue.jstr cap.err)]
  else
    JValue.jobj [("status", JValue.jstr "error"),
                 ("command_executed", cmdVal),
                 ("error", JValue.jstr (errorOfRData result_data)),
                 ("stdout", JValue.jstr cap.out),
                 ("stderr", JValue.jstr cap.err)]

/-- `PyMOLServer._process_command` on a parsed JSON dictionary.  The
outer catch-all handler (lines 240-243) also returns a
`status: "error"` object; on dictionary inputs its body cannot raise in
this model, so that branch is unreachable here. -/
def process_command (eng : Engine) (cap : Captured)
    (message : List (String × JValue)) : JValue :=
  match jlookup "cmd" message with
  | none =>
      JValue.jobj [("status", JValue.jstr "error"),
                   ("error", JValue.jstr "Invalid message format: 'cmd' key missing.")]
  | some cmdVal =>
      let r := innerExec eng cmdVal
      buildResponse cmdVal r.1 r.2 cap

/-! ### `PyMOLServer._handle_client` (pymol_server.py lines 61-133)

The socket receive side is modelled by a trace of receive events.  An
exhausted trace behaves like the peer closing (a real `recv` would block
forever otherwise).  `decode` is the oracle for `json.loads` succeeding
with a JSON dictionary, which is the only request shape the claims
exercise. -/

inductive NetEvent : Type where
  /-- `recv` returned this chunk of bytes (as text). -/
  | chunk : String → NetEvent
  /-- `recv` returned `b""`: the peer closed the connection. -/
  | closed : NetEvent
  /-- `recv` raised `socket.timeout`. -/
  | timeout : NetEvent
deriving Repr

/-- The server receive loop (lines 67-106), returning the parsed message
to process, or `none` when the handler returns without sending anything:
peer closed before a successful parse (the local `message` stays
unbound), timeout before any data, or the single post-timeout decode of
the partial buffer failing (`message = None`). -/
def serverLoop (decode : String → Option (List (String × JValue))) :
    List NetEvent → String → Option (List (String × JValue))
  | [], _ => none
  | NetEvent.closed :: _, _ => none
  | NetEvent.timeout :: _, data =>
      if data == "" then none
      else
        match decode data with
        | some message => some message
        | none => none
  | NetEvent.chunk c :: rest, data =>
      let data' := data ++ c
      match decode data' with
      | some message => some message
      | none => serverLoop decode rest data'

/-- `PyMOLServer._handle_client`: the response written back on the
connection, or `none` when the connection is closed with nothing sent.
The outer `except` branch (lines 121-130) only fires when processing or
sending raises, which on dictionary messages cannot happen in this
model. -/
def handle_client (eng : Engine) (cap : Captured)
    (decode : String → Option (List (String × JValue)))
    (evs : List NetEvent) : Option JValue :=
  match serverLoop decode evs "" with
  | none => none
  | some message => some (process_command eng cap message)

/-! ### `PyMOLClient` (backend/pymol_client.py and
backend/pymol/pymol_client.py)

Python exceptions crossing the client code are modelled explicitly, so
that "raises `ConnectionError`" and "raises a wrapped generic
`Exception`" are distinguishable outcomes, and a raw library exception
escaping unhandled would be visible as a distinct value. -/

inductive PyExc : Type where
  /-- Python `ConnectionError(msg)` (including `ConnectionRefusedError`). -/
  | connectionError : String → PyExc
  /-- `socket.timeout`, whose `str` is `"timed out"`. -/
  | timeoutExc : PyExc
  /-- Any other `OSError` from the socket layer (e.g. `socket.gaierror`),
  not caught by `_connect`'s `(socket.timeout, ConnectionRefusedError)`
  clause. -/
  | otherOS : String → PyExc
  /-- A deliberately raised generic `Exception(msg)`. -/
  | genericError : String → PyExc
deriving Repr

/-- Python `str(e)` for the exceptions above. -/
def pyExcStr : PyExc → String
  | PyExc.connectionError m => m
  | PyExc.timeoutExc => "timed out"
  | PyExc.otherOS m => m
  | PyExc.genericError m => m

/-- Outcome of `sock.connect((host, port))`. -/
inductive ConnectOutcome : Type where
  | ok : ConnectOutcome
  /-- `socket.timeout` during connect. -/
  | timeout : ConnectOutcome
  /-- `ConnectionRefusedError`. -/
  | refused : ConnectOutcome
  /-- Any other `OSError` (propagates out of `_connect` unchanged). -/
  | otherErr : String → ConnectOutcome
deriving Repr

/-- `PyMOLClient._connect` (both copies, lines 12-19): wrap timeout and
connection-refused into `ConnectionError`; anything else propagates. -/
def connectStep (host : String) (port : Nat) : ConnectOutcome → Except PyExc Unit
  | ConnectOutcome.ok => Except.ok ()
  | ConnectOutcome.timeout =>
      Except.error (PyExc.connectionError
        ("Could not connect to PyMOL at " ++ host ++ ":" ++ toString port ++
         ". Error: timed out"))
  | ConnectOutcome.refused =>
      Except.error (PyExc.connectionError
        ("Could not connect to PyMOL at " ++ host ++ ":" ++ toString port ++
         ". Error: [Errno 111] Connection refused"))
  | ConnectOutcome.otherErr m => Except.error (PyExc.otherOS m)

/-- The client receive loop (both copies): accumulate chunks, stop on
the first buffer that parses as JSON or on peer close; `socket.timeout`
from `recv` escapes the loop as an exception.  Returns the final
accumulated buffer. -/
def clientLoop (decode : String → Option JValue) :
    List NetEvent → String → Except PyExc String
  | [], buf => Except.ok buf
  | NetEvent.closed :: _, buf => Except.ok buf
  | NetEvent.timeout :: _, _ => Except.error PyExc.timeoutExc
  | NetEvent.chunk c :: rest, buf =>
      let buf' := buf ++ c
      match decode buf' with
      | some _ => Except.ok buf'
      | none => clientLoop decode rest buf'

/-- The shared body of `execute_command` inside the `try`: connect,
send (sending is not a failure point in this model), receive until the
buffer parses, then parse once more; a final parse failure yields the
`{"error": "Invalid response from PyMOL", "raw": ...}` object. -/
def clientBody (decode : String → Option JValue) (host : String) (port : Nat)
    (co : ConnectOutcome) (evs : List NetEvent) : Except PyExc JValue :=
  match connectStep host port co with
  | Except.error e => Except.error e
  | Except.ok _ =>
      match clientLoop decode evs "" with
      | Except.error e => Except.error e
      | Except.ok response =>
          match decode response with
          | some result => Except.ok result
          | none =>
              Except.ok (JValue.jobj [("error", JValue.jstr "Invalid response from PyMOL"),
                                      ("raw", JValue.jstr response)])

/-- `PyMOLClient.execute_command` in the primary client
(backend/pymol_client.py lines 21-68): `except ConnectionError` re-raises
a `ConnectionError`, the blanket `except Exception` wraps everything
else in a generic `Exception`. -/
def execute_command (decode : String → Option JValue) (host : String) (port : Nat)
    (co : ConnectOutcome) (evs : List NetEvent) (command : String) :
    Except PyExc JValue :=
  match clientBody decode host port co evs with
  | Except.ok v => Except.ok v
  | Except.error (PyExc.connectionError m) =>
      Except.error (PyExc.connectionError ("PyMOL Connection Error: " ++ m))
  | Except.error e =>
      Except.error (PyExc.genericError
        ("PyMOL Client Error executing '" ++ command ++ "': " ++ pyExcStr e))

/-- `PyMOLClient.execute_command` in the duplicate client
(backend/pymol/pymol_client.py lines 21-57): a single blanket
`except Exception` wraps every failure, including `ConnectionError`, in
a generic `Exception`. -/
def execute_command_dup (decode : String → Option JValue) (host : String) (port : Nat)
    (co : ConnectOutcome) (evs : List NetEvent) (command : String) :
    Except PyExc JValue :=
  match clientBody decode host port co evs with
  | Except.ok v => Except.ok v
  | Except.error e =>
      Except.error (PyExc.genericError
        ("Error executing PyMOL command: " ++ pyExcStr e))

/-- Whether a client outcome is a deliberately raised (handled)
exception or a normal return — as opposed to a raw library exception
escaping the client boundary unhandled. -/
def isHandled : Except PyExc JValue → Bool
  | Except.error PyExc.timeoutExc => false
  | Except.error (PyExc.otherOS _) => false
  | Except.error (PyExc.connectionError _) => true
  | Except.error (PyExc.genericError _) => true
  | Except.ok _ => true

/-- Whether a client outcome is a raised `ConnectionError`. -/
def isConnError : Except PyExc JValue → Bool
  | Except.error (PyExc.connectionError _) => true
  | _ => false

/-- The `error` field of a normally returned client result. -/
def okErrField (r : Except PyExc JValue) : Option String :=
  match r with
  | Except.ok v => respError v
  | Except.error _ => none

/-! ### Concrete instances used by the witnesses -/

/-- A benign engine: every call succeeds, the loaded-object table holds
the single entry `"1hpv"`, and every selection counts 1482 atoms. -/
def engOk : Engine where
  fetch := fun _ _ => Except.ok ()
  doCmd := fun _ => Except.ok ()
  getNames := Except.ok ["1hpv"]
  countAtoms := fun _ => Except.ok 1482

/-- Empty captured streams. -/
def cap0 : Captured where
  out := ""
  err := ""

/-- A JSON-decode oracle that never succeeds. -/
def decNone : String → Option JValue := fun _ => none

/-- A dictionary-decode oracle that never succeeds. -/
def sdecNone : String → Option (List (String × JValue)) := fun _ => none

/-! ### Helper lemmas -/

/-- Unfolding `process_command` when the `cmd` key is present. -/
theorem process_command_some (eng : Engine) (cap : Captured)
    (message : List (String × JValue)) (v : JValue)
    (hc : jlookup "cmd" message = some v) :
    process_command eng cap message =
      buildResponse v (innerExec eng v).1 (innerExec eng v).2 cap := by
  unfold process_command
  rw [hc]

/-- A response built with `success_flag = True` reports `"success"`. -/
theorem respStatus_buildResponse_true (cmdVal : JValue) (rd : Option RData)
    (cap : Captured) :
    respStatus (buildResponse cmdVal true rd cap) = some "success" := rfl

/-- A response built with `success_flag = False` reports `"error"`. -/
theorem respStatus_buildResponse_false (cmdVal : JValue) (rd : Option RData)
    (cap : Captured) :
    respStatus (buildResponse cmdVal false rd cap) = some "error" := rfl

/-- Both response shapes carry the raw command value in
`command_executed`. -/
theorem respField_command_executed (cmdVal : JValue) (flag : Bool)
    (rd : Option RData) (cap : Captured) :
    respField "command_executed" (buildResponse cmdVal flag rd cap) = some cmdVal := by
  cases flag <;> rfl

/-! ### Claim theorems -/

/-- Claim C1: for every parsed request dictionary containing a `cmd`
key, `_process_command` returns a mapping whose `status` field is
exactly `"success"` or `"error"`. -/
theorem process_command_status_success_or_error (eng : Engine) (cap : Captured)
    (message : List (String × JValue))
    (_h : (jlookup "cmd" message).isSome = true) :
    respStatus (process_command eng cap message) = some "success" ∨
    respStatus (process_command eng cap message) = some "error" := by
  cases hc : jlookup "cmd" message with
  | none =>
      refine Or.inr ?_
      unfold process_command
      rw [hc]
      rfl
  | some v =>
      rw [process_command_some eng cap message v hc]
      cases hf : (innerExec eng v).1 with
      | false => exact Or.inr (respStatus_buildResponse_false v _ cap)
      | true => exact Or.inl (respStatus_buildResponse_true v _ cap)

/-- Witness for C1 at the concrete request `{"cmd": "zoom"}`. -/
theorem process_command_status_success_or_error_witness :
    respStatus (process_command engOk cap0 [("cmd", JValue.jstr "zoom")]) = some "success" ∨
    respStatus (process_command engOk cap0 [("cmd", JValue.jstr "zoom")]) = some "error" :=
  process_command_status_success_or_error engOk cap0 [("cmd", JValue.jstr "zoom")] rfl

/-- Claim C3: a parsed request without a `cmd` key yields exactly the
object with `status` `"error"` and the fixed missing-key error
message. -/
theorem missing_cmd_exact_error (eng : Engine) (cap : Captured)
    (message : List (String × JValue))
    (hc : jlookup "cmd" message = none) :
    process_command eng cap message =
      JValue.jobj [("status", JValue.jstr "error"),
                   ("error", JValue.jstr "Invalid message format: 'cmd' key missing.")] := by
  unfold process_command
  rw [hc]

/-- Witness for C3 at the concrete request `{}`. -/
theorem missing_cmd_exact_error_witness :
    process_command engOk cap0 [] =
      JValue.jobj [("status", JValue.jstr "error"),
                   ("error", JValue.jstr "Invalid message format: 'cmd' key missing.")] :=
  missing_cmd_exact_error engOk cap0 [] rfl

/-- Claim C4: a `success` response to `{"cmd": c}` carries the original
command string verbatim in `command_executed`. -/
theorem success_command_executed_verbatim (eng : Engine) (cap : Captured)
    (message : List (String × JValue)) (c : String)
    (hc : jlookup "cmd" message = some (JValue.jstr c))
    (_hs : respStatus (process_command eng cap message) = some "success") :
    respField "command_executed" (process_command eng cap message) =
      some (JValue.jstr c) := by
  rw [process_command_some eng cap message _ hc]
  exact respField_command_executed (JValue.jstr c) _ _ cap

/-- Witness for C4 at the concrete request `{"cmd": "zoom"}` against the
benign engine (whose response is a success). -/
theorem success_command_executed_verbatim_witness :
    respField "command_executed" (process_command engOk cap0 [("cmd", JValue.jstr "zoom")]) =
      some (JValue.jstr "zoom") :=
  success_command_executed_verbatim engOk cap0 [("cmd", JValue.jstr "zoom")] "zoom" rfl rfl

/-- Claim C2: a `fetch <identifier>` command answered with `success`
has `result.object` equal to the lowercased identifier (the first
whitespace token after `fetch`) and a non-negative `atoms` count; and
when the synchronous fetch call returns without raising but no loaded
object matches that name, the response status is `"error"`. -/
theorem fetch_success_object_and_atoms (eng : Engine) (cap : Captured)
    (message : List (String × JValue)) (c w args t : String) (ts : List String)
    (hc : jlookup "cmd" message = some (JValue.jstr c))
    (hsplit : pySplit1 (pyStrip c) = [w, args])
    (hw : pyLower w = "fetch")
    (htoks : pySplitWs args = t :: ts)
    (hobj : pyLower t ≠ "") :
    (respStatus (process_command eng cap message) = some "success" →
      ∃ n : Nat,
        resultField "object" (process_command eng cap message) =
          some (JValue.jstr (pyLower t)) ∧
        resultField "atoms" (process_command eng cap message) =
          some (JValue.jint (Int.ofNat n)) ∧
        0 ≤ Int.ofNat n) ∧
    (∀ names : List String,
      eng.fetch t (pyLower t) = Except.ok () →
      eng.getNames = Except.ok names →
      pyLower t ∉ names.map pyLower →
      respStatus (process_command eng cap message) = some "error") := by
  have hargs : args ≠ "" := by
    intro h
    rw [h] at htoks
    have h0 : pySplitWs "" = ([] : List String) := rfl
    rw [h0] at htoks
    exact List.noConfusion htoks
  have hstep : innerExec eng (JValue.jstr c) =
      (match eng.fetch t (pyLower t) with
       | Except.error msg => (false, some (RData.execErr msg))
       | Except.ok _ => fetchVerify eng (pyLower t)) := by
    simp [innerExec, hsplit, hw, hargs, htoks]
  have hpc := process_command_some eng cap message _ hc
  constructor
  · intro hs
    cases hfetch : eng.fetch t (pyLower t) with
    | error m =>
        have hie : innerExec eng (JValue.jstr c) = (false, some (RData.execErr m)) := by
          rw [hstep, hfetch]
        rw [hpc] at hs
        simp [hie, respStatus, buildResponse, jlookup] at hs
    | ok u =>
        cases u
        cases hgn : eng.getNames with
        | error m =>
            have hie : innerExec eng (JValue.jstr c) =
                (false, some (RData.execErr m)) := by
              rw [hstep, hfetch]
              simp [fetchVerify, hgn]
            rw [hpc] at hs
            simp [hie, respStatus, buildResponse, jlookup] at hs
        | ok names =>
            by_cases hmem : ((names.map pyLower).contains (pyLower t)) = true
            · cases hca : eng.countAtoms ("(" ++ pyLower t ++ ")") with
              | error m =>
                  have hie : innerExec eng (JValue.jstr c) =
                      (false, some (RData.execErr m)) := by
                    rw [hstep, hfetch]
                    simp only [fetchVerify, hgn]
                    rw [hmem, decide_eq_true hobj]
                    simp [hca]
                  rw [hpc] at hs
                  simp [hie, respStatus, buildResponse, jlookup] at hs
              | ok n =>
                  have hie : innerExec eng (JValue.jstr c) =
                      (true, some (RData.fetchOk (pyLower t) n)) := by
                    rw [hstep, hfetch]
                    simp only [fetchVerify, hgn]
                    rw [hmem, decide_eq_true hobj]
                    simp [hca]
                  refine ⟨n, ?_, ?_, ?_⟩
                  · rw [hpc]
                    simp [hie, resultField, respField, buildResponse, rdataToJson, jlookup]
                  · rw [hpc]
                    simp [hie, resultField, respField, buildResponse, rdataToJson, jlookup]
                  · exact Int.ofNat_nonneg n
            · have hcf : ((names.map pyLower).contains (pyLower t)) = false := by
                simpa using hmem
              have hie : innerExec eng (JValue.jstr c) =
                  (false, some (RData.execErr
                    ("Object '" ++ pyLower t ++
                     "' not found after synchronous fetch attempt. Check PDB ID and network."))) := by
                rw [hstep, hfetch]
                simp only [fetchVerify, hgn]
                rw [hcf]
                simp [hobj]
              rw [hpc] at hs
              simp [hie, respStatus, buildResponse, jlookup] at hs
  · intro names hfetch hgn hmem
    have hcf : ((names.map pyLower).contains (pyLower t)) = false := by
      simp [hmem]
    have hie : innerExec eng (JValue.jstr c) =
        (false, some (RData.execErr
          ("Object '" ++ pyLower t ++
           "' not found after synchronous fetch attempt. Check PDB ID and network."))) := by
      rw [hstep, hfetch]
      simp only [fetchVerify, hgn]
      rw [hcf]
      simp [hobj]
    rw [hpc]
    simp [hie, respStatus, buildResponse, jlookup]

/-- Witness for C2 at the concrete request `{"cmd": "fetch 1HPV"}`
against the benign engine. -/
theorem fetch_success_object_and_atoms_witness :
    (respStatus (process_command engOk cap0 [("cmd", JValue.jstr "fetch 1HPV")]) = some "success" →
      ∃ n : Nat,
        resultField "object" (process_command engOk cap0 [("cmd", JValue.jstr "fetch 1HPV")]) =
          some (JValue.jstr (pyLower "1HPV")) ∧
        resultField "atoms" (process_command engOk cap0 [("cmd", JValue.jstr "fetch 1HPV")]) =
          some (JValue.jint (Int.ofNat n)) ∧
        0 ≤ Int.ofNat n) ∧
    (∀ names : List String,
      engOk.fetch "1HPV" (pyLower "1HPV") = Except.ok () →
      engOk.getNames = Except.ok names →
      pyLower "1HPV" ∉ names.map pyLower →
      respStatus (process_command engOk cap0 [("cmd", JValue.jstr "fetch 1HPV")]) = some "error") :=
  fetch_success_object_and_atoms engOk cap0 [("cmd", JValue.jstr "fetch 1HPV")]
    "fetch 1HPV" "fetch" "1HPV" "1HPV" [] rfl rfl rfl rfl (by decide)

/-- Claim C9: an empty or all-whitespace `cmd` string does not crash
`_process_command`: the empty split makes `parts[0]` raise `IndexError`,
the execution handler catches it, and the response has status `"error"`
carrying the exception message. -/
theorem whitespace_command_caught_error (eng : Engine) (cap : Captured)
    (message : List (String × JValue)) (c : String)
    (hc : jlookup "cmd" message = some (JValue.jstr c))
    (hempty : pyStrip c = "") :
    respStatus (process_command eng cap message) = some "error" ∧
    respError (process_command eng cap message) = some "list index out of range" := by
  rw [process_command_some eng cap message _ hc]
  have hinner : innerExec eng (JValue.jstr c) =
      (false, some (RData.execErr "list index out of range")) := by
    simp only [innerExec]
    rw [hempty]
    rfl
  rw [hinner]
  exact ⟨rfl, rfl⟩

/-- Witness for C9 at the concrete request `{"cmd": "   "}`. -/
theorem whitespace_command_caught_error_witness :
    respStatus (process_command engOk cap0 [("cmd", JValue.jstr "   ")]) = some "error" ∧
    respError (process_command engOk cap0 [("cmd", JValue.jstr "   ")]) =
      some "list index out of range" :=
  whitespace_command_caught_error engOk cap0 [("cmd", JValue.jstr "   ")] "   " rfl rfl

/-- Claim C10: a bare `fetch` with no identifier skips the synchronous
fetch branch, runs generic execution, and then the fetch verification
references the never-assigned `obj_name`, raising an exception that is
caught and turned into a `status: "error"` response. -/
theorem bare_fetch_verification_error (eng : Engine) (cap : Captured)
    (message : List (String × JValue)) (c w : String) (names : List String)
    (hc : jlookup "cmd" message = some (JValue.jstr c))
    (hsplit : pySplit1 (pyStrip c) = [w])
    (hw : pyLower w = "fetch")
    (hdo : eng.doCmd (pyStrip c) = Except.ok ())
    (hgn : eng.getNames = Except.ok names) :
    respStatus (process_command eng cap message) = some "error" := by
  rw [process_command_some eng cap message _ hc]
  have hinner : innerExec eng (JValue.jstr c) =
      (false, some (RData.execErr
        "local variable 'obj_name' referenced before assignment")) := by
    simp [innerExec, hsplit, hw, hdo, hgn]
  rw [hinner]
  exact respStatus_buildResponse_false _ _ cap

/-- Witness for C10 at the concrete request `{"cmd": "fetch"}`. -/
theorem bare_fetch_verification_error_witness :
    respStatus (process_command engOk cap0 [("cmd", JValue.jstr "fetch")]) = some "error" :=
  bare_fetch_verification_error engOk cap0 [("cmd", JValue.jstr "fetch")] "fetch" "fetch"
    ["1hpv"] rfl rfl rfl rfl rfl

/-- If the decode oracle rejects every prefix accumulation, the server
receive loop started at `buf` runs through all chunks, hits the trailing
timeout, fails the single final decode, and yields no message. -/
theorem serverLoop_chunks_timeout_none
    (decode : String → Option (List (String × JValue))) :
    ∀ (chunks : List String) (buf : String),
      (∀ n : Nat, decode (buf ++ concatAll (chunks.take n)) = none) →
      serverLoop decode (chunks.map NetEvent.chunk ++ [NetEvent.timeout]) buf = none := by
  intro chunks
  induction chunks with
  | nil =>
      intro buf h
      have h0 := h 0
      rw [show concatAll (List.take 0 []) = "" from rfl, String.append_empty] at h0
      simp [serverLoop, h0]
  | cons c cs ih =>
      intro buf h
      have h1 := h 1
      rw [show concatAll (List.take 1 (c :: cs)) = c ++ "" from rfl,
          String.append_empty] at h1
      simp only [List.map_cons, List.cons_append, serverLoop]
      rw [h1]
      exact ih (buf ++ c) (fun n => by
        have hn := h (n + 1)
        rw [show concatAll (List.take (n + 1) (c :: cs)) = c ++ concatAll (List.take n cs)
              from rfl, ← String.append_assoc] at hn
        exact hn)

/-- Claim C8: when the server's receive loop ends by timeout with some
partial data accumulated, the single final decode of the buffer is
attempted; if it fails, the handler returns without sending any
response bytes on the connection. -/
theorem timeout_partial_unparsed_no_response (eng : Engine) (cap : Captured)
    (decode : String → Option (List (String × JValue))) (chunks : List String)
    (hnd : ∀ n : Nat, decode (concatAll (chunks.take n)) = none)
    (_hne : concatAll chunks ≠ "") :
    handle_client eng cap decode (chunks.map NetEvent.chunk ++ [NetEvent.timeout]) = none := by
  unfold handle_client
  have hl := serverLoop_chunks_timeout_none decode chunks ""
    (fun n => by rw [String.empty_append]; exact hnd n)
  rw [hl]

/-- Witness for C8: a single unparseable chunk followed by a timeout. -/
theorem timeout_partial_unparsed_no_response_witness :
    handle_client engOk cap0 sdecNone
      (List.map NetEvent.chunk ["partial"] ++ [NetEvent.timeout]) = none :=
  timeout_partial_unparsed_no_response engOk cap0 sdecNone ["partial"]
    (fun _ => rfl) (by decide)

/-- Claim C5, counterexample: in the duplicate client
(backend/pymol/pymol_client.py), a refused initial connect is re-raised
by `execute_command` as a generic `Exception`, not as the distinguished
`ConnectionError` the claim requires of every client. -/
theorem dup_client_connect_refused_generic :
    execute_command_dup decNone "localhost" 9876 ConnectOutcome.refused [] "zoom" =
      Except.error (PyExc.genericError
        ("Error executing PyMOL command: Could not connect to PyMOL at localhost:9876. Error: [Errno 111] Connection refused")) ∧
    isConnError (execute_command_dup decNone "localhost" 9876 ConnectOutcome.refused [] "zoom") =
      false :=
  ⟨rfl, rfl⟩

/-- Claim C5, amended: the primary client (backend/pymol_client.py)
raises `ConnectionError` when the initial connect fails by timeout or
connection-refused; the duplicate client wraps the same failure in a
generic `Exception`. -/
theorem primary_connect_failure_raises_connection_error
    (decode : String → Option JValue) (host : String) (port : Nat)
    (evs : List NetEvent) (command : String) (co : ConnectOutcome)
    (hco : co = ConnectOutcome.refused ∨ co = ConnectOutcome.timeout) :
    isConnError (execute_command decode host port co evs command) = true := by
  rcases hco with h | h <;> subst h <;> rfl

/-- Witness for the amended C5 at a refused connect. -/
theorem primary_connect_failure_raises_connection_error_witness :
    isConnError (execute_command decNone "localhost" 9876 ConnectOutcome.refused [] "zoom") =
      true :=
  primary_connect_failure_raises_connection_error decNone "localhost" 9876 [] "zoom"
    ConnectOutcome.refused (Or.inl rfl)

/-- Claim C6, counterexample: the parse-failure object's `error` text is
`"Invalid response from PyMOL"`, not the `"Invalid response"` the claim
states. -/
theorem invalid_response_error_text_counterexample :
    okErrField (execute_command decNone "localhost" 9876 ConnectOutcome.ok
        [NetEvent.closed] "zoom") = some "Invalid response from PyMOL" ∧
    ("Invalid response from PyMOL" : String) ≠ "Invalid response" :=
  ⟨rfl, by decide⟩

/-- Claim C6, amended: if the receive loop ends without the accumulated
bytes parsing as JSON, both clients return the parse-failure object with
`error` equal to `"Invalid response from PyMOL"` and `raw` equal to the
accumulated bytes as text. -/
theorem client_invalid_response_object (decode : String → Option JValue)
    (host : String) (port : Nat) (evs : List NetEvent) (command : String)
    (buf : String)
    (hl : clientLoop decode evs "" = Except.ok buf)
    (hd : decode buf = none) :
    execute_command decode host port ConnectOutcome.ok evs command =
      Except.ok (JValue.jobj [("error", JValue.jstr "Invalid response from PyMOL"),
                              ("raw", JValue.jstr buf)]) ∧
    execute_command_dup decode host port ConnectOutcome.ok evs command =
      Except.ok (JValue.jobj [("error", JValue.jstr "Invalid response from PyMOL"),
                              ("raw", JValue.jstr buf)]) := by
  have hb : clientBody decode host port ConnectOutcome.ok evs =
      Except.ok (JValue.jobj [("error", JValue.jstr "Invalid response from PyMOL"),
                              ("raw", JValue.jstr buf)]) := by
    simp [clientBody, connectStep, hl, hd]
  exact ⟨by simp [execute_command, hb], by simp [execute_command_dup, hb]⟩

/-- Witness for the amended C6: the peer closes before sending anything
and the empty buffer does not parse. -/
theorem client_invalid_response_object_witness :
    execute_command decNone "localhost" 9876 ConnectOutcome.ok [NetEvent.closed] "zoom" =
      Except.ok (JValue.jobj [("error", JValue.jstr "Invalid response from PyMOL"),
                              ("raw", JValue.jstr "")]) ∧
    execute_command_dup decNone "localhost" 9876 ConnectOutcome.ok [NetEvent.closed] "zoom" =
      Except.ok (JValue.jobj [("error", JValue.jstr "Invalid response from PyMOL"),
                              ("raw", JValue.jstr "")]) :=
  client_invalid_response_object decNone "localhost" 9876 [NetEvent.closed] "zoom" ""
    rfl rfl

/-- Claim C7: when the receive wait times out, the primary client's
`execute_command` raises a deliberately wrapped error naming the timeout
(`"timed out"` appears in its message), and neither client ever lets a
raw unhandled exception escape the client boundary. -/
theorem client_timeout_wrapped_and_handled (decode : String → Option JValue)
    (host : String) (port : Nat) (evs : List NetEvent) (command : String)
    (ht : clientLoop decode evs "" = Except.error PyExc.timeoutExc) :
    execute_command decode host port ConnectOutcome.ok evs command =
      Except.error (PyExc.genericError
        ("PyMOL Client Error executing '" ++ command ++ "': timed out")) ∧
    (∀ (co : ConnectOutcome) (evs2 : List NetEvent),
      isHandled (execute_command decode host port co evs2 command) = true) ∧
    (∀ (co : ConnectOutcome) (evs2 : List NetEvent),
      isHandled (execute_command_dup decode host port co evs2 command) = true) := by
  refine ⟨?_, ?_, ?_⟩
  · have hb : clientBody decode host port ConnectOutcome.ok evs =
        Except.error PyExc.timeoutExc := by
      simp [clientBody, connectStep, ht]
    simp [execute_command, hb, pyExcStr]
    rw [String.append_assoc]
    rfl
  · intro co evs2
    cases hb : clientBody decode host port co evs2 with
    | ok v => simp [execute_command, hb, isHandled]
    | error e => cases e <;> simp [execute_command, hb, isHandled]
  · intro co evs2
    cases hb : clientBody decode host port co evs2 with
    | ok v => simp [execute_command_dup, hb, isHandled]
    | error e => cases e <;> simp [execute_command_dup, hb, isHandled]

/-- Witness for C7: a timeout as the first receive event. -/
theorem client_timeout_wrapped_and_handled_witness :
    execute_command decNone "localhost" 9876 ConnectOutcome.ok [NetEvent.timeout] "zoom" =
      Except.error (PyExc.genericError
        ("PyMOL Client Error executing '" ++ "zoom" ++ "': timed out")) ∧
    (∀ (co : ConnectOutcome) (evs2 : List NetEvent),
      isHandled (execute_command decNone "localhost" 9876 co evs2 "zoom") = true) ∧
    (∀ (co : ConnectOutcome) (evs2 : List NetEvent),
      isHandled (execute_command_dup decNone "localhost" 9876 co evs2 "zoom") = true) :=
  client_timeout_wrapped_and_handled decNone "localhost" 9876 [NetEvent.timeout] "zoom" rfl

end ProteinCodex
